import Mathlib

/-!
Shallow embedding of `src/main.py` (Instagram -> Facebook relay pipeline).

The script's effectful parts are modelled by explicit state passing plus an
event trace: filesystem and network calls become constructors of `Event` /
`FileOp`, Python exceptions become `Option PyError` results, and the mutable
`cache` dict (the Ledger) becomes an explicit `Cache` value threaded through
the functions.  `print` calls are not modelled.  Outcomes of the external
network (whether a download ultimately fails, what HTTP response Facebook
returns) are supplied by oracles (`World`, per-attempt failure functions), so
every theorem quantifies over all possible behaviours of the environment.
-/

namespace PostVid

/-- Python exceptions that the embedded code can raise, collapsed to the
classes the control flow distinguishes. -/
inductive PyError where
  | osError          -- OSError / PermissionError from open()
  | jsonDecodeError  -- json.JSONDecodeError
  | httpError        -- requests.HTTPError from raise_for_status()
  | requestError     -- any requests exception during download
deriving Repr, DecidableEq

/-- JSON values, as returned by Python's `json.load`. -/
inductive Json where
  | null
  | bool (b : Bool)
  | num (n : Int)
  | str (s : String)
  | arr (elems : List Json)
  | obj (fields : List (String × Json))
deriving Repr

/-- The observable states of the backing store behind `posted_cache.json`,
as seen by `load_cache`: the file may be absent, present but unreadable
(open/read raises an OSError), present but not valid JSON (`json.load`
raises `json.JSONDecodeError`), or present and parsing to a JSON value. -/
inductive CacheFileState where
  | missing
  | unreadable
  | unparsable
  | parsed (j : Json)
deriving Repr

/-- The JSON object `\x7b"posted_ids": []\x7d` that `load_cache` returns for an
absent or undecodable cache file. -/
def emptyLedgerJson : Json := Json.obj [("posted_ids", Json.arr [])]

/-- Embedding of `load_cache` (src/main.py lines 43-50).  The Python code
checks `Path(CACHE_FILE).exists()`, then opens and `json.load`s the file
inside a `try` that catches only `json.JSONDecodeError`; an OSError raised
by `open` (unreadable file) is not caught and propagates. -/
def load_cache : CacheFileState → Except PyError Json
  | CacheFileState.missing => Except.ok emptyLedgerJson
  | CacheFileState.unreadable => Except.error PyError.osError
  | CacheFileState.unparsable => Except.ok emptyLedgerJson
  | CacheFileState.parsed j => Except.ok j

/-- The in-memory ledger: the `cache` dict once `main` has ensured the
`"posted_ids"` key is present (src/main.py lines 186-187). -/
structure Cache where
  posted_ids : List String
deriving Repr, DecidableEq

/-- Name of the cache file (src/main.py line 27). -/
def CACHE_FILE : String := "posted_cache.json"

/-- Elementary file operations performed by `save_cache`, at the level a
concurrent reader of the file could observe. -/
inductive FileOp where
  | openTruncate (path : String)          -- open(path, "w"): truncates in place
  | writeData (path : String) (posted_ids : List String)  -- json.dump of the cache
  | closeFile (path : String)
  | renameFile (src : String) (dst : String)
deriving Repr, DecidableEq

/-- Embedding of `save_cache` (src/main.py lines 52-54) as the sequence of
file operations it performs: it opens `posted_cache.json` itself in mode
`"w"` (truncating it in place) and writes the JSON dump; there is no
temporary file and no rename. -/
def save_cache (cache : Cache) : List FileOp :=
  [FileOp.openTruncate CACHE_FILE,
   FileOp.writeData CACHE_FILE cache.posted_ids,
   FileOp.closeFile CACHE_FILE]

/-- True when the operation is a rename. -/
def FileOp.isRename : FileOp → Bool
  | FileOp.renameFile _ _ => true
  | _ => false

/-- True when the operation writes (creates/opens for writing) a path other
than the final cache file, as the write-to-temp half of an atomic replace
would. -/
def FileOp.writesTempPath : FileOp → Bool
  | FileOp.openTruncate p => p != CACHE_FILE
  | FileOp.writeData p _ => p != CACHE_FILE
  | _ => false

/-- An Instagram post as surfaced by instaloader (src/main.py lines 112-124):
`caption` is `none` when the post has no caption (Python `post.caption` is
`None`), and `video_url` is `none` when no direct URL is available. -/
structure IGPost where
  shortcode : String
  is_video : Bool
  caption : Option String
  video_url : Option String
  date_utc : String
deriving Repr, DecidableEq

/-- A candidate item built by `fetch_latest_instagram_videos`
(src/main.py lines 125-130). -/
structure Video where
  id : String
  video_url : String
  caption : String
  publishedAt : String
deriving Repr, DecidableEq

/-- The loop body of `fetch_latest_instagram_videos` (src/main.py lines
111-132): walk the newest-first post stream, stop once `count >=
max_results`, keep only video posts that expose a direct `video_url`, and
default a missing caption to `""` (`post.caption or ""`). -/
def fetch_go (max_results : Nat) : List IGPost → Nat → List Video
  | [], _ => []
  | p :: ps, count =>
    if max_results ≤ count then []
    else if p.is_video then
      match p.video_url with
      | none => fetch_go max_results ps count
      | some u =>
        { id := p.shortcode, video_url := u,
          caption := p.caption.getD "", publishedAt := p.date_utc }
          :: fetch_go max_results ps (count + 1)
    else fetch_go max_results ps count

/-- Embedding of `fetch_latest_instagram_videos` (src/main.py lines 99-132),
parameterised by the newest-first post stream that
`profile.get_posts()` yields. -/
def fetch_latest_instagram_videos (posts : List IGPost) (max_results : Nat) : List Video :=
  fetch_go max_results posts 0

/-- The `privacy` parameter string `'\x7b"value":"EVERYONE"\x7d'`
(src/main.py line 166). -/
def FB_PRIVACY : String := "\x7b\"value\":\"EVERYONE\"\x7d"

/-- The request parameters `upload_to_facebook` builds (src/main.py lines
162-167).  The `access_token` entry is configuration plumbing (an env
variable) and carries no per-item information, so it is not modelled. -/
structure UploadParams where
  description : String
  published : String
  privacy : String
deriving Repr, DecidableEq

/-- Builder for the `params` dict of the Graph API call: the caption becomes
`description`, and `published` / `privacy` are the fixed literals of
src/main.py lines 165-166. -/
def uploadParams (caption : String) : UploadParams :=
  { description := caption, published := "true", privacy := FB_PRIVACY }

/-- The HTTP response of the Graph API call, abstracted to the two bits the
analysis needs: whether `r.raise_for_status()` passes (2xx status), and
whether the JSON body `r.json()` carries an application-level `"error"`
object.  Bodies are modelled post-parse. -/
structure FBResponse where
  statusOk : Bool
  bodyHasError : Bool
deriving Repr, DecidableEq

/-- Observable pipeline events, in program order. -/
inductive Event where
  /-- `download_video_from_url(url, id + ".mp4")` was invoked for item `id`. -/
  | downloadCall (url : String) (id : String)
  /-- One HTTP GET attempt (1-based index) inside `download_video_from_url`. -/
  | downloadAttempt (n : Nat)
  /-- `time.sleep(secs)` between download attempts. -/
  | sleepSecs (secs : Nat)
  /-- `requests.post` to the `/videos` Graph endpoint for item `id` with
  these params. -/
  | uploadCall (id : String) (params : UploadParams)
  /-- `cache["posted_ids"].append(id)`. -/
  | appendId (id : String)
  /-- `save_cache(cache)` was called with this `posted_ids` value. -/
  | persistEvent (posted_ids : List String)
  /-- The `finally` block removed the local file of item `id`. -/
  | cleanup (id : String)
deriving Repr, DecidableEq

/-- Loop body of `download_video_from_url` (src/main.py lines 137-152),
driven by a per-attempt failure oracle: `fails n = true` means the `n`-th
HTTP GET (1-based) raises.  `attempt` is the Python `attempt` variable
(number of failures so far); `fuel` bounds the recursion and equals
`retries + 1 - attempt` at every call, so it never reaches the `0` case
from the top-level entry. -/
def download_go (fails : Nat → Bool) (retries : Nat) :
    Nat → Nat → (Except PyError Unit) × List Event
  | _, 0 => (Except.error PyError.requestError, [])
  | attempt, fuel + 1 =>
    if fails (attempt + 1) then
      if attempt + 1 > retries then
        (Except.error PyError.requestError, [Event.downloadAttempt (attempt + 1)])
      else
        let rest := download_go fails retries (attempt + 1) fuel
        (rest.1, Event.downloadAttempt (attempt + 1) :: Event.sleepSecs 3 :: rest.2)
    else
      (Except.ok (), [Event.downloadAttempt (attempt + 1)])

/-- Embedding of `download_video_from_url` (src/main.py lines 135-152):
`attempt` starts at `0`; each failed attempt increments it, raises once
`attempt > retries`, and otherwise sleeps 3 seconds and retries.  The
default retry bound is `retries = 2`. -/
def download_video_from_url (fails : Nat → Bool) (retries : Nat) :
    (Except PyError Unit) × List Event :=
  download_go fails retries 0 (retries + 1)

/-- Number of download attempts recorded in a trace. -/
def countAttempts : List Event → Nat
  | [] => 0
  | Event.downloadAttempt _ :: tr => countAttempts tr + 1
  | _ :: tr => countAttempts tr

/-- The trace `download_video_from_url` produces when every attempt fails,
starting from failure count `a`: attempts `a+1, a+2, ...` with a 3 second
sleep between consecutive attempts and none after the last. -/
def allFailTrace (a : Nat) : Nat → List Event
  | 0 => []
  | 1 => [Event.downloadAttempt (a + 1)]
  | fuel + 2 =>
    Event.downloadAttempt (a + 1) :: Event.sleepSecs 3 :: allFailTrace (a + 1) (fuel + 1)

/-- Result of one step of `upload_to_facebook`: `err = some e` means the
Python function raised `e`; `cache` is the state of the (mutable) cache dict
when the function exits; `trace` records its effects. -/
structure StepOut where
  err : Option PyError
  cache : Cache
  trace : List Event
deriving Repr, DecidableEq

/-- Embedding of `upload_to_facebook` (src/main.py lines 155-180).
`vid_id` is `Path(file_path).stem`, which for the orchestrator's
`f"\x7bitem['id']\x7d.mp4"` files is the item id (Instagram shortcodes contain
no dots).  The function first consults the cache and returns early if the id
was already posted; otherwise it performs the single `requests.post`,
raises on a non-2xx status (`raise_for_status`), and on a 2xx status —
without inspecting the parsed body for an `"error"` field — appends the id
and calls `save_cache`. -/
def upload_to_facebook (r : FBResponse) (vid_id : String) (caption : String)
    (cache : Cache) : StepOut :=
  if cache.posted_ids.contains vid_id then
    { err := none, cache := cache, trace := [] }
  else
    let callTrace := [Event.uploadCall vid_id (uploadParams caption)]
    if r.statusOk then
      let cache2 : Cache := { posted_ids := cache.posted_ids ++ [vid_id] }
      { err := none, cache := cache2,
        trace := callTrace ++ [Event.appendId vid_id, Event.persistEvent cache2.posted_ids] }
    else
      { err := some PyError.httpError, cache := cache, trace := callTrace }

/-- Per-item outcome of one loop iteration in `main`: `success` when the
body ran to completion, `failed` when the `except` clause caught an
exception. -/
inductive RelayResult where
  | success
  | failed
deriving Repr, DecidableEq

/-- Behaviour of the external world during a run: whether
`download_video_from_url` ultimately fails (raises after exhausting its
retries) for a given item, and which HTTP response the Graph API returns
to the upload call for a given item. -/
structure World where
  fetchFails : Video → Bool
  resp : Video → FBResponse

/-- One iteration of the `for item in reversed(new_videos)` loop
(src/main.py lines 206-221): download into `f"\x7bitem['id']\x7d.mp4"`, then
upload; any exception is caught by the `except` clause (yielding a `failed`
outcome); the `finally` clause always removes the local file. -/
def processItem (w : World) (cache : Cache) (item : Video) :
    Cache × RelayResult × List Event :=
  let dl := [Event.downloadCall item.video_url item.id]
  if w.fetchFails item then
    (cache, RelayResult.failed, dl ++ [Event.cleanup item.id])
  else
    let u := upload_to_facebook (w.resp item) item.id item.caption cache
    match u.err with
    | none => (u.cache, RelayResult.success, dl ++ u.trace ++ [Event.cleanup item.id])
    | some _ => (u.cache, RelayResult.failed, dl ++ u.trace ++ [Event.cleanup item.id])

/-- The whole `for` loop of `main` over an already-selected item list:
threads the cache through the iterations and collects one outcome per
item plus the concatenated trace. -/
def runLoop (w : World) : Cache → List Video → Cache × List RelayResult × List Event
  | cache, [] => (cache, [], [])
  | cache, item :: rest =>
    let step := processItem w cache item
    let tail := runLoop w step.1 rest
    (tail.1, step.2.1 :: tail.2.1, step.2.2 ++ tail.2.2)

/-- The Selector of `main` (src/main.py lines 200-206): drop candidates
whose id is already in `cache["posted_ids"]`, then process the survivors in
reversed (oldest-first) order. -/
def select (cache : Cache) (videos : List Video) : List Video :=
  (videos.filter (fun v => !(cache.posted_ids.contains v.id))).reverse

/-- The per-run core of `main` (src/main.py lines 199-221), starting from a
loaded cache and the fetched newest-first candidate list.  (The early
`return`s for an empty `videos` or empty `new_videos` list produce the same
state and empty trace as running the loop over an empty selection, so they
need no separate case.) -/
def main_run (w : World) (cache : Cache) (videos : List Video) :
    Cache × List RelayResult × List Event :=
  runLoop w cache (select cache videos)

/-- The ids, in order, for which the run invoked `download_video_from_url`. -/
def downloadedIds (tr : List Event) : List String :=
  tr.filterMap (fun e => match e with
    | Event.downloadCall _ i => some i
    | _ => none)

/-- The `posted_ids` lists, in order, that the run passed to `save_cache`. -/
def persistedSets (tr : List Event) : List (List String) :=
  tr.filterMap (fun e => match e with
    | Event.persistEvent ids => some ids
    | _ => none)

/-- Whether an item's relay succeeds end to end under world `w`: the
download does not fail and the upload response has a 2xx status. -/
def itemRelaySucceeds (w : World) (item : Video) : Bool :=
  !(w.fetchFails item) && (w.resp item).statusOk

/-- The item id an event belongs to, when it has one. -/
def eventItemId : Event → Option String
  | Event.downloadCall _ i => some i
  | Event.uploadCall i _ => some i
  | Event.appendId i => some i
  | Event.cleanup i => some i
  | _ => none

/-- World in which every download succeeds and every upload gets an HTTP
200 response with no embedded error object. -/
def allOkWorld : World :=
  { fetchFails := fun _ => false,
    resp := fun _ => { statusOk := true, bodyHasError := false } }

/-- World in which exactly the item with id `"B"` has a download that fails
on every attempt, and every upload gets a clean HTTP 200. -/
def secondFailsWorld : World :=
  { fetchFails := fun v => v.id == "B",
    resp := fun _ => { statusOk := true, bodyHasError := false } }

/-- Candidate item fixture. -/
def mkVid (i : String) : Video :=
  { id := i, video_url := "url-" ++ i, caption := "cap-" ++ i,
    publishedAt := "2026-01-01T00:00:00" }

/-- Download-attempt oracle that fails on every attempt. -/
def alwaysFails : Nat → Bool := fun _ => true

/-- HTTP 200 response whose JSON body carries an application-level
`"error"` object (the Graph API edge case). -/
def okWithEmbeddedError : FBResponse := { statusOk := true, bodyHasError := true }

/-- Clean HTTP 200 response. -/
def okNoError : FBResponse := { statusOk := true, bodyHasError := false }

/-- Instagram post fixture: a video post with a direct URL and no caption. -/
def igFixture : IGPost :=
  { shortcode := "P1", is_video := true, caption := none,
    video_url := some "u1", date_utc := "d" }

/-! Helper lemmas shared by the claim theorems. -/

theorem downloadedIds_append (a b : List Event) :
    downloadedIds (a ++ b) = downloadedIds a ++ downloadedIds b := by
  simp [downloadedIds]

theorem persistedSets_append (a b : List Event) :
    persistedSets (a ++ b) = persistedSets a ++ persistedSets b := by
  simp [persistedSets]

theorem processItem_downloadedIds (w : World) (cache : Cache) (item : Video) :
    downloadedIds (processItem w cache item).2.2 = [item.id] := by
  by_cases hf : w.fetchFails item = true <;>
    by_cases hm : item.id ∈ cache.posted_ids <;>
    by_cases hs : (w.resp item).statusOk = true <;>
    simp [processItem, upload_to_facebook, downloadedIds, hf, hm, hs]

theorem runLoop_downloadedIds (w : World) :
    ∀ (items : List Video) (cache : Cache),
      downloadedIds (runLoop w cache items).2.2 = items.map Video.id
  | [], _ => rfl
  | item :: rest, cache => by
    simp [runLoop, downloadedIds_append, processItem_downloadedIds,
      runLoop_downloadedIds w rest]

theorem runLoop_results_length (w : World) :
    ∀ (items : List Video) (cache : Cache),
      ((runLoop w cache items).2.1).length = items.length
  | [], _ => rfl
  | _ :: rest, cache => by
    simp [runLoop, runLoop_results_length w rest]

theorem processItem_event_ids (w : World) (cache : Cache) (item : Video)
    (e : Event) (he : e ∈ (processItem w cache item).2.2)
    (i : String) (hi : eventItemId e = some i) : i = item.id := by
  by_cases hf : w.fetchFails item = true <;>
    by_cases hm : item.id ∈ cache.posted_ids <;>
    by_cases hs : (w.resp item).statusOk = true <;>
    cases e <;>
    simp_all [processItem, upload_to_facebook, eventItemId]

theorem runLoop_event_ids (w : World) :
    ∀ (items : List Video) (cache : Cache) (e : Event),
      e ∈ (runLoop w cache items).2.2 →
      ∀ i, eventItemId e = some i → ∃ v, v ∈ items ∧ v.id = i
  | [], _, e, he => by simp [runLoop] at he
  | item :: rest, cache, e, he => by
    intro i hi
    simp only [runLoop, List.mem_append] at he
    rcases he with h1 | h2
    · exact ⟨item, List.mem_cons_self item rest,
        (processItem_event_ids w cache item e h1 i hi).symm⟩
    · obtain ⟨v, hv, hvi⟩ :=
        runLoop_event_ids w rest (processItem w cache item).1 e h2 i hi
      exact ⟨v, List.mem_cons_of_mem item hv, hvi⟩

theorem processItem_uploadCall_params (w : World) (cache : Cache) (item : Video)
    (i : String) (p : UploadParams)
    (h : Event.uploadCall i p ∈ (processItem w cache item).2.2) :
    p = uploadParams item.caption := by
  by_cases hf : w.fetchFails item = true <;>
    by_cases hm : item.id ∈ cache.posted_ids <;>
    by_cases hs : (w.resp item).statusOk = true <;>
    simp_all [processItem, upload_to_facebook]

theorem runLoop_uploadCall_params (w : World) :
    ∀ (items : List Video) (cache : Cache) (i : String) (p : UploadParams),
      Event.uploadCall i p ∈ (runLoop w cache items).2.2 →
      ∃ v, v ∈ items ∧ p = uploadParams v.caption
  | [], _, i, p, h => by simp [runLoop] at h
  | item :: rest, cache, i, p, h => by
    simp only [runLoop, List.mem_append] at h
    rcases h with h1 | h2
    · exact ⟨item, List.mem_cons_self item rest,
        processItem_uploadCall_params w cache item i p h1⟩
    · obtain ⟨v, hv, hp⟩ :=
        runLoop_uploadCall_params w rest (processItem w cache item).1 i p h2
      exact ⟨v, List.mem_cons_of_mem item hv, hp⟩

theorem select_mem_not_posted (cache : Cache) (videos : List Video)
    (v : Video) (hv : v ∈ select cache videos) :
    cache.posted_ids.contains v.id = false := by
  simp only [select, List.mem_reverse, List.mem_filter] at hv
  simpa using hv.2

theorem fetch_go_caption (max_results : Nat) :
    ∀ (posts : List IGPost) (count : Nat) (v : Video),
      v ∈ fetch_go max_results posts count →
      ∃ p, p ∈ posts ∧ v.caption = p.caption.getD ""
  | [], _, v, h => by simp [fetch_go] at h
  | p :: ps, count, v, h => by
    simp only [fetch_go] at h
    by_cases hc : max_results ≤ count
    · simp [hc] at h
    · rw [if_neg hc] at h
      by_cases hv : p.is_video = true
      · rw [if_pos hv] at h
        cases hu : p.video_url with
        | none =>
          rw [hu] at h
          obtain ⟨q, hq, hcap⟩ := fetch_go_caption max_results ps count v h
          exact ⟨q, List.mem_cons_of_mem p hq, hcap⟩
        | some u =>
          rw [hu] at h
          rcases List.mem_cons.mp h with h1 | h2
          · exact ⟨p, List.mem_cons_self p ps, by rw [h1]⟩
          · obtain ⟨q, hq, hcap⟩ := fetch_go_caption max_results ps (count + 1) v h2
            exact ⟨q, List.mem_cons_of_mem p hq, hcap⟩
      · rw [if_neg hv] at h
        obtain ⟨q, hq, hcap⟩ := fetch_go_caption max_results ps count v h
        exact ⟨q, List.mem_cons_of_mem p hq, hcap⟩

theorem download_go_succ (fails : Nat → Bool) (retries attempt fuel : Nat) :
    download_go fails retries attempt (fuel + 1) =
      if fails (attempt + 1) = true then
        if attempt + 1 > retries then
          (Except.error PyError.requestError, [Event.downloadAttempt (attempt + 1)])
        else
          ((download_go fails retries (attempt + 1) fuel).1,
            Event.downloadAttempt (attempt + 1) :: Event.sleepSecs 3 ::
              (download_go fails retries (attempt + 1) fuel).2)
      else (Except.ok (), [Event.downloadAttempt (attempt + 1)]) := rfl

theorem download_go_allFail (fails : Nat → Bool) (retries : Nat)
    (h : ∀ n, fails n = true) :
    ∀ (fuel a : Nat), a + fuel = retries + 1 →
      download_go fails retries a fuel =
        (Except.error PyError.requestError, allFailTrace a fuel)
  | 0, _, _ => rfl
  | 1, a, ha => by
    have hgt : a + 1 > retries := by omega
    rw [download_go_succ, if_pos (h (a + 1)), if_pos hgt]
    rfl
  | fuel + 2, a, ha => by
    have hle : ¬ (a + 1 > retries) := by omega
    have ih := download_go_allFail fails retries h (fuel + 1) (a + 1) (by omega)
    rw [download_go_succ, if_pos (h (a + 1)), if_neg hle, ih]
    rfl

theorem countAttempts_allFailTrace :
    ∀ (fuel a : Nat), countAttempts (allFailTrace a fuel) = fuel
  | 0, _ => rfl
  | 1, _ => rfl
  | fuel + 2, a => by
    have ih := countAttempts_allFailTrace (fuel + 1) (a + 1)
    show countAttempts (allFailTrace (a + 1) (fuel + 1)) + 1 = fuel + 2
    omega

/-! The claim theorems. -/

/-- C1: at-most-one-successful-relay commit.  For an item whose id is not
yet in the Ledger, the loop body appends the id and persists the Ledger
exactly when the item's relay succeeds (download succeeds and the
`requests.post` call returns a success status, which is what
`raise_for_status` checks); on success the item's trace is exactly
download, upload call, append, persist, cleanup — so the persist comes
immediately after the upload call — and `runLoop` emits every later item's
events strictly after this item's persist; on any fetch or upload failure
the Ledger is neither mutated nor persisted for that item. -/
theorem c1_commit_iff_publish_success (w : World) (cache : Cache) (item : Video)
    (h : item.id ∉ cache.posted_ids) :
    (itemRelaySucceeds w item = true →
      (processItem w cache item).1.posted_ids = cache.posted_ids ++ [item.id] ∧
      (processItem w cache item).2.2 =
        [Event.downloadCall item.video_url item.id,
         Event.uploadCall item.id (uploadParams item.caption),
         Event.appendId item.id,
         Event.persistEvent (cache.posted_ids ++ [item.id]),
         Event.cleanup item.id]) ∧
    (itemRelaySucceeds w item = false →
      (processItem w cache item).1 = cache ∧
      Event.appendId item.id ∉ (processItem w cache item).2.2 ∧
      persistedSets (processItem w cache item).2.2 = []) ∧
    (∀ rest, (runLoop w cache (item :: rest)).2.2 =
      (processItem w cache item).2.2 ++
        (runLoop w (processItem w cache item).1 rest).2.2) := by
  refine ⟨?_, ?_, fun _ => rfl⟩
  · intro hs
    simp only [itemRelaySucceeds, Bool.and_eq_true, Bool.not_eq_true'] at hs
    simp [processItem, upload_to_facebook, h, hs.1, hs.2]
  · intro hs
    by_cases hf : w.fetchFails item = true
    · simp [processItem, persistedSets, hf]
    · have hb : w.fetchFails item = false := by simpa using hf
      have hsOk : (w.resp item).statusOk = false := by
        simpa [itemRelaySucceeds, hb] using hs
      simp [processItem, upload_to_facebook, persistedSets, h, hb, hsOk]

/-- Witness for C1: a fresh item in the all-success world gets committed. -/
theorem c1_commit_iff_publish_success_witness :
    (processItem allOkWorld ⟨[]⟩ (mkVid "A")).1.posted_ids = [] ++ ["A"] :=
  ((c1_commit_iff_publish_success allOkWorld ⟨[]⟩ (mkVid "A") (by decide)).1 rfl).1

/-- C2: idempotence of re-runs.  If an id is in the Ledger when the run
starts, the Selector's filter drops every candidate with that id, and the
run's trace contains no download invocation and no upload call for it. -/
theorem c2_idempotent_rerun (w : World) (cache : Cache) (videos : List Video)
    (i : String) (h : i ∈ cache.posted_ids) :
    (∀ v ∈ select cache videos, v.id ≠ i) ∧
    (∀ u, Event.downloadCall u i ∉ (main_run w cache videos).2.2) ∧
    (∀ p, Event.uploadCall i p ∉ (main_run w cache videos).2.2) := by
  have hsel : ∀ v ∈ select cache videos, v.id ≠ i := by
    intro v hv heq
    have hf := select_mem_not_posted cache videos v hv
    rw [heq] at hf
    have hc : cache.posted_ids.contains i = true := by simpa using h
    rw [hc] at hf
    exact Bool.noConfusion hf
  refine ⟨hsel, ?_, ?_⟩
  · intro u hmem
    obtain ⟨v, hv, hvi⟩ :=
      runLoop_event_ids w (select cache videos) cache _ hmem i rfl
    exact hsel v hv hvi
  · intro p hmem
    obtain ⟨v, hv, hvi⟩ :=
      runLoop_event_ids w (select cache videos) cache _ hmem i rfl
    exact hsel v hv hvi

/-- Witness for C2: an already-posted id is never downloaded again. -/
theorem c2_idempotent_rerun_witness :
    Event.downloadCall "url-X" "X" ∉ (main_run allOkWorld ⟨["X"]⟩ [mkVid "X"]).2.2 :=
  (c2_idempotent_rerun allOkWorld ⟨["X"]⟩ [mkVid "X"] "X" (by decide)).2.1 "url-X"

/-- C3: processing order.  The run downloads exactly the candidates whose
ids are not in the Ledger, in reversed (oldest-unseen-first) order; for the
unseen newest-first candidates `[C5, C4, C3]` the items are processed and
committed in the order `C3, C4, C5` (the successive `save_cache` snapshots
grow in that order and the final Ledger lists them in that order). -/
theorem c3_processing_order :
    (∀ (w : World) (cache : Cache) (videos : List Video),
      downloadedIds (main_run w cache videos).2.2 =
        ((videos.filter (fun v => !(cache.posted_ids.contains v.id))).reverse).map
          Video.id) ∧
    downloadedIds (main_run allOkWorld ⟨[]⟩ [mkVid "C5", mkVid "C4", mkVid "C3"]).2.2 =
      ["C3", "C4", "C5"] ∧
    persistedSets (main_run allOkWorld ⟨[]⟩ [mkVid "C5", mkVid "C4", mkVid "C3"]).2.2 =
      [["C3"], ["C3", "C4"], ["C3", "C4", "C5"]] ∧
    (main_run allOkWorld ⟨[]⟩ [mkVid "C5", mkVid "C4", mkVid "C3"]).1.posted_ids =
      ["C3", "C4", "C5"] := by
  refine ⟨?_, rfl, rfl, rfl⟩
  intro w cache videos
  exact runLoop_downloadedIds w (select cache videos) cache

/-- C4: per-item failure isolation.  Every selected item yields exactly one
outcome and every selected item's download is invoked no matter how the
other items fare; in the concrete three-item run where only the middle
item's fetch fails, the other two are committed and the Ledger holds
exactly the first and third ids. -/
theorem c4_failure_isolation :
    (∀ (w : World) (cache : Cache) (items : List Video),
      ((runLoop w cache items).2.1).length = items.length ∧
      downloadedIds (runLoop w cache items).2.2 = items.map Video.id) ∧
    (main_run secondFailsWorld ⟨[]⟩ [mkVid "A", mkVid "B", mkVid "C"]).2.1 =
      [RelayResult.success, RelayResult.failed, RelayResult.success] ∧
    (main_run secondFailsWorld ⟨[]⟩ [mkVid "A", mkVid "B", mkVid "C"]).1.posted_ids =
      ["C", "A"] ∧
    ("A" ∈ (main_run secondFailsWorld ⟨[]⟩ [mkVid "A", mkVid "B", mkVid "C"]).1.posted_ids ∧
     "C" ∈ (main_run secondFailsWorld ⟨[]⟩ [mkVid "A", mkVid "B", mkVid "C"]).1.posted_ids ∧
     "B" ∉ (main_run secondFailsWorld ⟨[]⟩ [mkVid "A", mkVid "B", mkVid "C"]).1.posted_ids) := by
  refine ⟨fun w cache items =>
    ⟨runLoop_results_length w items cache, runLoop_downloadedIds w items cache⟩,
    rfl, rfl, by decide⟩

/-- C5: retry exhaustion.  Against a download that fails on every attempt,
`download_video_from_url` with bound `retries` makes exactly `retries + 1`
attempts, its trace is attempts separated by single 3-second sleeps (none
after the last), and it ends by raising, so the orchestrator reports the
item `failed`. -/
theorem c5_retry_exhaustion (fails : Nat → Bool) (retries : Nat)
    (h : ∀ n, fails n = true) :
    (download_video_from_url fails retries).1 = Except.error PyError.requestError ∧
    countAttempts (download_video_from_url fails retries).2 = retries + 1 ∧
    (download_video_from_url fails retries).2 = allFailTrace 0 (retries + 1) ∧
    (∀ (w : World) (cache : Cache) (item : Video), w.fetchFails item = true →
      (processItem w cache item).2.1 = RelayResult.failed) := by
  have e : download_video_from_url fails retries =
      (Except.error PyError.requestError, allFailTrace 0 (retries + 1)) :=
    download_go_allFail fails retries h (retries + 1) 0 (by omega)
  refine ⟨by rw [e], ?_, by rw [e], ?_⟩
  · rw [e]
    exact countAttempts_allFailTrace (retries + 1) 0
  · intro w cache item hf
    simp [processItem, hf]

/-- Witness for C5 at the default bound `retries = 2`: three attempts. -/
theorem c5_retry_exhaustion_witness :
    countAttempts (download_video_from_url alwaysFails 2).2 = 2 + 1 ∧
    (download_video_from_url alwaysFails 2).1 = Except.error PyError.requestError :=
  ⟨(c5_retry_exhaustion alwaysFails 2 (fun _ => rfl)).2.1,
   (c5_retry_exhaustion alwaysFails 2 (fun _ => rfl)).1⟩

/-- C6 counterexample: an existing-but-unreadable cache file makes
`load_cache` raise the OSError from `open` (only `json.JSONDecodeError` is
caught), so it does not return the empty ledger without raising as the
claim states for unreadable stores. -/
theorem c6_load_recovery_counterexample :
    load_cache CacheFileState.unreadable = Except.error PyError.osError ∧
    load_cache CacheFileState.unreadable ≠ Except.ok emptyLedgerJson :=
  ⟨rfl, by simp [load_cache]⟩

/-- C6 (amended): a missing or undecodable cache file yields the empty
ledger without raising, and a readable file yields its parsed content; but
an unreadable file raises, since `load_cache` catches only
`json.JSONDecodeError`. -/
theorem c6_load_recovery_amended :
    load_cache CacheFileState.missing = Except.ok emptyLedgerJson ∧
    load_cache CacheFileState.unparsable = Except.ok emptyLedgerJson ∧
    load_cache CacheFileState.unreadable = Except.error PyError.osError ∧
    (∀ j, load_cache (CacheFileState.parsed j) = Except.ok j) :=
  ⟨rfl, rfl, rfl, fun _ => rfl⟩

/-- C7 counterexample: an HTTP 200 response whose body carries an embedded
`"error"` object is treated as success — `upload_to_facebook` does not
raise, appends the id, and persists the Ledger — contradicting the claim
that such a response never leads to a Ledger commit. -/
theorem c7_embedded_error_counterexample :
    okWithEmbeddedError.statusOk = true ∧
    okWithEmbeddedError.bodyHasError = true ∧
    (upload_to_facebook okWithEmbeddedError "V1" "cap" ⟨[]⟩).err = none ∧
    (upload_to_facebook okWithEmbeddedError "V1" "cap" ⟨[]⟩).cache.posted_ids = ["V1"] ∧
    Event.persistEvent ["V1"] ∈ (upload_to_facebook okWithEmbeddedError "V1" "cap" ⟨[]⟩).trace := by
  refine ⟨rfl, rfl, rfl, rfl, ?_⟩
  decide

/-- C7 (amended): the publish step detects failure through the transport
status only (`raise_for_status`): for a fresh id it raises, leaving the
Ledger untouched, exactly when the status is non-2xx, and it commits
whenever the status is 2xx, regardless of any embedded error object in the
body (which the code parses but never inspects). -/
theorem c7_transport_only_failure (r : FBResponse) (vid caption : String)
    (cache : Cache) (h : vid ∉ cache.posted_ids) :
    ((upload_to_facebook r vid caption cache).err = none ↔ r.statusOk = true) ∧
    (r.statusOk = true →
      (upload_to_facebook r vid caption cache).cache.posted_ids =
        cache.posted_ids ++ [vid] ∧
      Event.persistEvent (cache.posted_ids ++ [vid]) ∈
        (upload_to_facebook r vid caption cache).trace) ∧
    (r.statusOk = false →
      (upload_to_facebook r vid caption cache).err = some PyError.httpError ∧
      (upload_to_facebook r vid caption cache).cache = cache ∧
      persistedSets (upload_to_facebook r vid caption cache).trace = []) := by
  by_cases hs : r.statusOk = true <;>
    simp [upload_to_facebook, persistedSets, h, hs]

/-- Witness for C7 (amended): the embedded-error 200 response commits. -/
theorem c7_transport_only_failure_witness :
    (upload_to_facebook okWithEmbeddedError "V2" "cap" ⟨[]⟩).cache.posted_ids =
      [] ++ ["V2"] :=
  ((c7_transport_only_failure okWithEmbeddedError "V2" "cap" ⟨[]⟩ (by decide)).2.1 rfl).1

/-- C8 counterexample: `upload_to_facebook` is not side-effect-free beyond
the remote call — on a clean 200 for a fresh id it mutates the Ledger and
writes the cache file (a `save_cache` call appears in its trace), and its
behaviour depends on the Ledger's content (for an already-posted id it
performs no upload call at all, showing it reads the Ledger). -/
theorem c8_publisher_frame_counterexample :
    (upload_to_facebook okNoError "V3" "c" ⟨[]⟩).cache ≠ (⟨[]⟩ : Cache) ∧
    persistedSets (upload_to_facebook okNoError "V3" "c" ⟨[]⟩).trace = [["V3"]] ∧
    (upload_to_facebook okNoError "V3" "c" ⟨["V3"]⟩).trace = [] := by
  decide

/-- C8 (amended): `upload_to_facebook` reads the Ledger (returning early
with no upload call when the id is already present), and on a successful
upload appends the id to the Ledger and writes the cache file via
`save_cache`; only the failure path leaves the Ledger untouched. -/
theorem c8_upload_touches_ledger (r : FBResponse) (vid caption : String)
    (cache : Cache) :
    (vid ∈ cache.posted_ids →
      upload_to_facebook r vid caption cache =
        { err := none, cache := cache, trace := [] }) ∧
    (vid ∉ cache.posted_ids → r.statusOk = true →
      (upload_to_facebook r vid caption cache).cache.posted_ids =
        cache.posted_ids ++ [vid] ∧
      Event.appendId vid ∈ (upload_to_facebook r vid caption cache).trace ∧
      persistedSets (upload_to_facebook r vid caption cache).trace =
        [cache.posted_ids ++ [vid]]) ∧
    (vid ∉ cache.posted_ids → r.statusOk = false →
      (upload_to_facebook r vid caption cache).cache = cache ∧
      persistedSets (upload_to_facebook r vid caption cache).trace = []) := by
  refine ⟨fun hm => by simp [upload_to_facebook, hm],
    fun hm hs => by simp [upload_to_facebook, persistedSets, hm, hs],
    fun hm hs => by simp [upload_to_facebook, persistedSets, hm, hs]⟩

/-- Witness for C8 (amended): skip path is silent; success path persists. -/
theorem c8_upload_touches_ledger_witness :
    (upload_to_facebook okNoError "V4" "c" ⟨["V4"]⟩).trace = [] ∧
    persistedSets (upload_to_facebook okNoError "V4" "c" ⟨[]⟩).trace = [[] ++ ["V4"]] :=
  ⟨by rw [(c8_upload_touches_ledger okNoError "V4" "c" ⟨["V4"]⟩).1 (by decide)],
   ((c8_upload_touches_ledger okNoError "V4" "c" ⟨[]⟩).2.1 (by decide) rfl).2.2⟩

/-- C9 counterexample: `save_cache` opens the cache file itself for
truncating write — it performs no rename and writes no temporary path, so
the claimed write-to-temp-then-rename (or equivalent) mechanism is absent. -/
theorem c9_persist_not_atomic_counterexample :
    FileOp.openTruncate CACHE_FILE ∈ save_cache ⟨["A"]⟩ ∧
    (save_cache ⟨["A"]⟩).any FileOp.isRename = false ∧
    (save_cache ⟨["A"]⟩).any FileOp.writesTempPath = false := by
  decide

/-- C9 (amended): every `save_cache` call overwrites `posted_cache.json` in
place — truncating open of the final path, write, close — with no rename
and no write to any other path, so a concurrent reader can observe a
partially written file. -/
theorem c9_persist_overwrites_in_place (cache : Cache) :
    save_cache cache =
      [FileOp.openTruncate CACHE_FILE,
       FileOp.writeData CACHE_FILE cache.posted_ids,
       FileOp.closeFile CACHE_FILE] ∧
    (save_cache cache).any FileOp.isRename = false ∧
    (save_cache cache).any FileOp.writesTempPath = false := by
  refine ⟨rfl, rfl, ?_⟩
  simp [save_cache, FileOp.writesTempPath]

/-- C10: forced-public publishing and caption default.  Every params dict
built for the upload sets `published` to `"true"` and `privacy` to
`'\x7b"value":"EVERYONE"\x7d'` unconditionally — in particular every upload call
recorded in any run's trace carries those values — and every candidate the
fetcher produces has a caption that is the source post's caption defaulted
to the empty string (`post.caption or ""`). -/
theorem c10_forced_public_caption_default :
    (∀ caption, (uploadParams caption).published = "true" ∧
      (uploadParams caption).privacy = "\x7b\"value\":\"EVERYONE\"\x7d" ∧
      (uploadParams caption).description = caption) ∧
    (∀ (w : World) (cache : Cache) (videos : List Video) (i : String)
        (p : UploadParams),
      Event.uploadCall i p ∈ (main_run w cache videos).2.2 →
      p.published = "true" ∧ p.privacy = FB_PRIVACY) ∧
    (∀ (posts : List IGPost) (max_results : Nat) (v : Video),
      v ∈ fetch_latest_instagram_videos posts max_results →
      ∃ p, p ∈ posts ∧ v.caption = p.caption.getD "") := by
  refine ⟨fun caption => ⟨rfl, rfl, rfl⟩, ?_, ?_⟩
  · intro w cache videos i p hp
    obtain ⟨v, hv, hpe⟩ :=
      runLoop_uploadCall_params w (select cache videos) cache i p hp
    rw [hpe]
    exact ⟨rfl, rfl⟩
  · intro posts max_results v hv
    exact fetch_go_caption max_results posts 0 v hv

/-- Witness for C10: the upload call of a concrete run is forced public. -/
theorem c10_forced_public_caption_default_witness :
    (uploadParams "cap-W").published = "true" ∧
    (uploadParams "cap-W").privacy = FB_PRIVACY :=
  c10_forced_public_caption_default.2.1 allOkWorld ⟨[]⟩ [mkVid "W"] "W"
    (uploadParams "cap-W") (by decide)

end PostVid
